import Mathlib

/-
Verification of the voucher_checker_dividends pipeline against its design
specification.  The Python modules `voucher_logic/{models,validators,
extraction,pdf_ingestor,highlight,controller}.py` and
`voucher_logic/llm/clients.py` are shallowly embedded below: pure Python
functions become Lean functions over `String`/`List Char`/`List Nat`
(bytes), exceptions become `Except`, and the injectable collaborator
objects of the controller become function parameters.
-/

namespace VoucherLogic

/-! ## Character-level utilities shared by the embedded modules -/

/-- Unicode whitespace as recognised by Python `str.strip`, `str.split`
and the regex class `\s`: ASCII controls 9-13 and 28-31, space, NEL,
no-break space and the Unicode space/line/paragraph separators. -/
def isPySpace (c : Char) : Bool :=
  (9 ≤ c.toNat && c.toNat ≤ 13) || (28 ≤ c.toNat && c.toNat ≤ 32) ||
  c.toNat = 0x85 || c.toNat = 0xa0 || c.toNat = 0x1680 ||
  (0x2000 ≤ c.toNat && c.toNat ≤ 0x200a) || c.toNat = 0x2028 ||
  c.toNat = 0x2029 || c.toNat = 0x202f || c.toNat = 0x205f || c.toNat = 0x3000

def isAsciiDigit (c : Char) : Bool := '0' ≤ c && c ≤ '9'

/-- Decimal digits accepted by Python unicode-aware `\d` and by the
`decimal.Decimal`/`int`/`float` constructors.  Python accepts every Unicode
decimal digit; the embedding covers ASCII and fullwidth digits, the two
digit scripts that occur in this repository. -/
def isPyDecDigit (c : Char) : Bool :=
  isAsciiDigit c || (0xff10 ≤ c.toNat && c.toNat ≤ 0xff19)

def pyDigitVal (c : Char) : Nat :=
  if isAsciiDigit c then c.toNat - 48 else c.toNat - 0xff10

/-- `str.lower`, restricted to ASCII letters.  (Python lowercases all cased
Unicode letters; the keyword tables in this repository are ASCII/CJK, and
CJK has no case, so the restriction is faithful on the embedded inputs.) -/
def pyLowerChar (c : Char) : Char :=
  if 'A' ≤ c && c ≤ 'Z' then Char.ofNat (c.toNat + 32) else c

def pyLower (s : String) : String := ⟨s.data.map pyLowerChar⟩

def stripCharsList (p : Char → Bool) (cs : List Char) : List Char :=
  ((cs.dropWhile p).reverse.dropWhile p).reverse

/-- `str.strip()` with no argument. -/
def pyStrip (s : String) : String := ⟨stripCharsList isPySpace s.data⟩

/-- Substring containment, i.e. Python `needle in hay` on `str`. -/
def containsSub (hay needle : List Char) : Bool :=
  match hay with
  | [] => needle.isEmpty
  | _ :: t => needle.isPrefixOf hay || containsSub t needle

/-- Index of the first occurrence of `needle` in `hay` (Python `str.find`,
with `none` for -1). -/
def findSubIdx (hay needle : List Char) : Option Nat :=
  match hay with
  | [] => if needle.isEmpty then some 0 else none
  | _ :: t =>
    if needle.isPrefixOf hay then some 0
    else (findSubIdx t needle).map (· + 1)

/-- `text.replace("JPY", "")`: remove non-overlapping occurrences of the
three-character marker left to right. -/
def removeJPY : List Char → List Char
  | 'J' :: 'P' :: 'Y' :: t => removeJPY t
  | c :: t => c :: removeJPY t
  | [] => []

/-- `str.splitlines` line-break characters. -/
def isLineBreakChar (c : Char) : Bool :=
  c = '\n' || c = '\r' || c.toNat = 0x0b || c.toNat = 0x0c ||
  c.toNat = 0x1c || c.toNat = 0x1d || c.toNat = 0x1e ||
  c.toNat = 0x85 || c.toNat = 0x2028 || c.toNat = 0x2029

def splitLinesAux (cur : List Char) : List Char → List (List Char)
  | [] => if cur.isEmpty then [] else [cur.reverse]
  | '\r' :: '\n' :: t => cur.reverse :: splitLinesAux [] t
  | c :: t =>
    if isLineBreakChar c then cur.reverse :: splitLinesAux [] t
    else splitLinesAux (c :: cur) t

/-- Python `str.splitlines`. -/
def splitLinesPy (s : String) : List String :=
  (splitLinesAux [] s.data).map (fun cs => ⟨cs⟩)

/-- Maximal runs of non-whitespace characters (Python `str.split()`). -/
def wsTokensAux (cur : List Char) : List Char → List (List Char)
  | [] => if cur.isEmpty then [] else [cur.reverse]
  | c :: t =>
    if isPySpace c then
      if cur.isEmpty then wsTokensAux [] t else cur.reverse :: wsTokensAux [] t
    else wsTokensAux (c :: cur) t

/-! ## Data model (`voucher_logic/models.py`) -/

/-- Normalised bounding box.  The Python code stores four floats; they are
data that the embedded claims never do arithmetic on, modelled as `Rat`. -/
abbrev BBox := Rat × Rat × Rat × Rat

structure HighlightSpan where
  page : Nat
  bbox : BBox
  label : Option String
deriving DecidableEq, Repr

/-- Runtime values storable in `FieldValue.value` (typed `Any` in Python):
the pipeline assigns strings; the validator additionally isinstance-checks
`datetime` and the numeric types `int`, `float`, `Decimal`. -/
inductive PyVal where
  | pstr (s : String)
  | pdatetime (year month day : Nat)
  | pint (n : Int)
  | pfloat
  | pdecimal
deriving DecidableEq, Repr

structure FieldValue where
  value : Option PyVal
  confidence : Option Rat
  sourceSpans : List HighlightSpan
  notes : Option String
deriving DecidableEq, Repr

def FieldValue.empty : FieldValue := ⟨none, none, [], none⟩

/-- `FieldValue.is_set`: `value not in (None, "")`. -/
def FieldValue.isSet (fv : FieldValue) : Bool :=
  match fv.value with
  | none => false
  | some (.pstr s) => s ≠ ""
  | some _ => true

structure TextSpan where
  page : Nat
  text : String
  bbox : Option BBox
deriving DecidableEq, Repr

/-- `ParsedDocument`.  `metadata` is a string-keyed dict; the program only
ever stores the integer `page_count` in it. -/
structure ParsedDocument where
  pages : List String
  tokens : List TextSpan
  metadata : List (String × Nat)
deriving DecidableEq, Repr

def ParsedDocument.empty : ParsedDocument := ⟨[], [], []⟩

structure ExtractedVoucherData where
  title : FieldValue
  companyName : FieldValue
  resolutionDate : FieldValue
  dividendAmount : FieldValue
  others : List (String × FieldValue)
  sourceHighlights : List HighlightSpan
deriving DecidableEq, Repr

def ExtractedVoucherData.empty : ExtractedVoucherData :=
  ⟨FieldValue.empty, FieldValue.empty, FieldValue.empty, FieldValue.empty, [], []⟩

inductive RequirementState where
  | PASS
  | FAIL
  | UNKNOWN
deriving DecidableEq, BEq, Repr

structure RequirementStatus where
  status : RequirementState
  message : String
deriving DecidableEq, Repr

inductive ValidationOutcome where
  | PASS
  | WARNING
  | FAIL
  | UNKNOWN
deriving DecidableEq, BEq, Repr

/-- Loop body of `ValidationOutcome.from_requirements`: return FAIL on the
first FAIL, downgrade the accumulator to WARNING on UNKNOWN. -/
def outcomeLoop : List RequirementStatus → ValidationOutcome → ValidationOutcome
  | [], acc => acc
  | st :: rest, acc =>
    if st.status = .FAIL then .FAIL
    else if st.status = .UNKNOWN then outcomeLoop rest .WARNING
    else outcomeLoop rest acc

/-- `ValidationOutcome.from_requirements`. -/
def ValidationOutcome.fromRequirements (statuses : List RequirementStatus) : ValidationOutcome :=
  match statuses with
  | [] => .UNKNOWN
  | _ => outcomeLoop statuses .PASS

/-- `ValidationReport.requirements` is an insertion-ordered dict, modelled
as an association list. -/
structure ValidationReport where
  requirements : List (String × RequirementStatus)
  overallStatus : ValidationOutcome
deriving DecidableEq, Repr

def ValidationReport.empty : ValidationReport := ⟨[], .UNKNOWN⟩

/-- `dict[key] = status` on an insertion-ordered dict: overwrite in place if
the key exists, otherwise append. -/
def dictSet (reqs : List (String × RequirementStatus)) (key : String)
    (st : RequirementStatus) : List (String × RequirementStatus) :=
  if reqs.any (fun kv => kv.1 == key) then
    reqs.map (fun kv => if kv.1 == key then (key, st) else kv)
  else reqs ++ [(key, st)]

/-- `ValidationReport.register`: store the status then recompute
`overall_status` from all registered statuses. -/
def ValidationReport.register (r : ValidationReport) (key : String)
    (st : RequirementStatus) : ValidationReport :=
  let reqs := dictSet r.requirements key st
  ⟨reqs, ValidationOutcome.fromRequirements (reqs.map Prod.snd)⟩

inductive ProviderType where
  | openai
  | claude
deriving DecidableEq, Repr

structure VoucherAnalysisResult where
  parsedDocument : ParsedDocument
  extracted : ExtractedVoucherData
  validation : ValidationReport
  highlightPdf : List Nat
  errors : List String
  warnings : List String
  sourceFilename : String
deriving DecidableEq, Repr

def VoucherAnalysisResult.empty : VoucherAnalysisResult :=
  ⟨ParsedDocument.empty, ExtractedVoucherData.empty, ValidationReport.empty, [], [], [], ""⟩

/-! ## Validator (`voucher_logic/validators.py`) -/

def isLeapYear (y : Nat) : Bool := y % 4 = 0 && (y % 100 ≠ 0 || y % 400 = 0)

def daysInMonth (y m : Nat) : Nat :=
  if m = 2 then (if isLeapYear y then 29 else 28)
  else if m = 4 || m = 6 || m = 9 || m = 11 then 30
  else 31

/-- Bounds enforced by the `datetime(year, month, day)` constructor
(`MINYEAR = 1`, `MAXYEAR = 9999`, proleptic Gregorian calendar). -/
def isValidDatetime (y m d : Nat) : Bool :=
  1 ≤ y && y ≤ 9999 && 1 ≤ m && m ≤ 12 && 1 ≤ d && d ≤ daysInMonth y m

/-- Ordered-alternation candidates for the strptime `%m` regex
`1[0-2]|0[1-9]|[1-9]`: each entry is (value, unconsumed rest). -/
def strptimeMonthCands : List Char → List (Nat × List Char)
  | c1 :: c2 :: rest =>
    (if c1 = '1' && '0' ≤ c2 && c2 ≤ '2' then [(10 + pyDigitVal c2, rest)] else []) ++
    (if c1 = '0' && '1' ≤ c2 && c2 ≤ '9' then [(pyDigitVal c2, rest)] else []) ++
    (if '1' ≤ c1 && c1 ≤ '9' then [(pyDigitVal c1, c2 :: rest)] else [])
  | [c1] => if '1' ≤ c1 && c1 ≤ '9' then [(pyDigitVal c1, [])] else []
  | [] => []

/-- Ordered-alternation candidates for the strptime `%d` regex
`3[01]|[12]\d|0[1-9]|[1-9]`. -/
def strptimeDayCands : List Char → List (Nat × List Char)
  | c1 :: c2 :: rest =>
    (if c1 = '3' && ('0' ≤ c2 && c2 ≤ '1') then [(30 + pyDigitVal c2, rest)] else []) ++
    (if ('1' ≤ c1 && c1 ≤ '2') && isPyDecDigit c2 then
       [(10 * pyDigitVal c1 + pyDigitVal c2, rest)] else []) ++
    (if c1 = '0' && '1' ≤ c2 && c2 ≤ '9' then [(pyDigitVal c2, rest)] else []) ++
    (if '1' ≤ c1 && c1 ≤ '9' then [(pyDigitVal c1, c2 :: rest)] else [])
  | [c1] => if '1' ≤ c1 && c1 ≤ '9' then [(pyDigitVal c1, [])] else []
  | [] => []

def firstSome {α β : Type} (xs : List α) (f : α → Option β) : Option β :=
  match xs with
  | [] => none
  | x :: t => match f x with | some b => some b | none => firstSome t f

/-- The shape check of `datetime.strptime(s, "%Y-%m-%d")`: `%Y` is the
unicode-aware `\d\d\d\d`, `%m`/`%d` follow the regexes above, the whole string
must be consumed.  Backtracking across the ordered alternatives is modelled
by `firstSome`. -/
def parseStrptimeYmd (cs : List Char) : Option (Nat × Nat × Nat) :=
  match cs with
  | y1 :: y2 :: y3 :: y4 :: '-' :: rest =>
    if isPyDecDigit y1 && isPyDecDigit y2 && isPyDecDigit y3 && isPyDecDigit y4 then
      let y := 1000 * pyDigitVal y1 + 100 * pyDigitVal y2 + 10 * pyDigitVal y3 + pyDigitVal y4
      firstSome (strptimeMonthCands rest) (fun md =>
        match md.2 with
        | '-' :: rest3 =>
          firstSome (strptimeDayCands rest3) (fun dd =>
            if dd.2.isEmpty then some (y, md.1, dd.1) else none)
        | _ => none)
    else none
  | _ => none

/-- `VoucherValidator._is_valid_date`: `datetime` instances pass; strings
pass iff `datetime.strptime(value.strip(), "%Y-%m-%d")` succeeds (shape
accepted by the strptime regex and constructible as a `datetime`); every
other type fails. -/
def isValidDateVal : Option PyVal → Bool
  | some (.pdatetime _ _ _) => true
  | some (.pstr s) =>
    match parseStrptimeYmd (pyStrip s).data with
    | some (y, m, d) => isValidDatetime y m d
    | none => false
  | _ => false

def dropSign : List Char → List Char
  | '+' :: t => t
  | '-' :: t => t
  | cs => cs

def isExponentOrEmpty : List Char → Bool
  | [] => true
  | c :: t =>
    if c = 'e' || c = 'E' then
      let t2 := dropSign t
      let ds := t2.span isPyDecDigit
      !ds.1.isEmpty && ds.2.isEmpty
    else false

/-- The `decimal-part [exponent-part]` production of the Decimal
numeric-string grammar: `digits '.' [digits] | ['.'] digits` then an
optional `(e|E) [sign] digits`. -/
def isDecimalNumericValue (cs : List Char) : Bool :=
  let sp := cs.span isPyDecDigit
  if sp.1.isEmpty then
    match sp.2 with
    | '.' :: r2 =>
      let fr := r2.span isPyDecDigit
      !fr.1.isEmpty && isExponentOrEmpty fr.2
    | _ => false
  else
    match sp.2 with
    | '.' :: r2 =>
      let fr := r2.span isPyDecDigit
      isExponentOrEmpty fr.2
    | _ => isExponentOrEmpty sp.2

def isInfChars (ls : List Char) : Bool :=
  ls = ['i', 'n', 'f'] || ls = ['i', 'n', 'f', 'i', 'n', 'i', 't', 'y']

def isNanChars : List Char → Bool
  | 'n' :: 'a' :: 'n' :: t => t.all isPyDecDigit
  | 's' :: 'n' :: 'a' :: 'n' :: t => t.all isPyDecDigit
  | _ => false

/-- Acceptance of `decimal.Decimal(s)` for a string argument: leading and
trailing whitespace and all underscores are removed, then the string must
match `[sign] (decimal-part [exponent] | Infinity | NaN-forms)`,
case-insensitively. -/
def isDecimalString (s : String) : Bool :=
  let cs := (stripCharsList isPySpace s.data).filter (fun c => c ≠ '_')
  let body := dropSign cs
  let lowered := body.map pyLowerChar
  isInfChars lowered || isNanChars lowered || isDecimalNumericValue body

/-- `VoucherValidator._is_valid_amount`: numeric types pass; strings pass
iff `Decimal(value.replace(",", "").strip())` succeeds; other types fail. -/
def isValidAmountVal : Option PyVal → Bool
  | some (.pint _) => true
  | some .pfloat => true
  | some .pdecimal => true
  | some (.pstr s) =>
    isDecimalString (pyStrip ⟨s.data.filter (fun c => c ≠ ',')⟩)
  | _ => false

/-- `VoucherValidator._evaluate_field`.  (The Python guard
`not field_value or ...` can never trigger on the first disjunct: a
dataclass instance is always truthy.) -/
def evaluateField (fieldName : String) (fv : FieldValue) (missingMessage : String) :
    RequirementStatus :=
  if !fv.isSet then ⟨.FAIL, missingMessage⟩
  else if fieldName == "resolution_date" && !isValidDateVal fv.value then
    ⟨.FAIL, "日付形式が不正です (YYYY-MM-DD)"⟩
  else if fieldName == "dividend_amount" && !isValidAmountVal fv.value then
    ⟨.FAIL, "金額の形式が不正です"⟩
  else ⟨.PASS, ""⟩

/-- `VoucherValidator.validate`: register the four requirements in the fixed
dict order of `self._requirements`. -/
def validate (data : ExtractedVoucherData) : ValidationReport :=
  let r0 := ValidationReport.empty
  let r1 := r0.register "title"
    (evaluateField "title" data.title "配当決議書のタイトルが確認できません")
  let r2 := r1.register "company_name"
    (evaluateField "company_name" data.companyName "配当決議の会社名が確認できません")
  let r3 := r2.register "resolution_date"
    (evaluateField "resolution_date" data.resolutionDate "配当決議日が確認できません")
  r3.register "dividend_amount"
    (evaluateField "dividend_amount" data.dividendAmount "配当金額が確認できません")

/-- The condition the specification names for C1: every required field is
set and passes its per-field format check. -/
def allRequiredFieldsOk (data : ExtractedVoucherData) : Bool :=
  data.title.isSet && data.companyName.isSet &&
  (data.resolutionDate.isSet && isValidDateVal data.resolutionDate.value) &&
  (data.dividendAmount.isSet && isValidAmountVal data.dividendAmount.value)

/-! ## Rule-based extraction engine (`voucher_logic/extraction.py`),
restricted to the helpers behind `_extract_dividend_amount`, `_match_date`
and `_extract_numeric` that the claims exercise -/

/-- Character replacements applied by `_normalize_delimiters` before the
whitespace collapse: fullwidth colon to colon, ideographic space and tab to
space, hyphen variants U+2010 and U+2015 to the ASCII hyphen. -/
def normChar (c : Char) : Char :=
  if c = '：' then ':'
  else if c = '　' then ' '
  else if c = '\t' then ' '
  else if c = '‐' then '-'
  else if c = '―' then '-'
  else c

/-- `_normalize_delimiters`: character replacements, then
`re.sub(r"\s+", " ", ...).strip()` (collapse whitespace runs to single
spaces and trim). -/
def normalizeDelimiters (s : String) : String :=
  ⟨List.intercalate [' '] (wsTokensAux [] (s.data.map normChar))⟩

/-- `_line_contains_keyword`: normalise and lowercase both sides, then
substring containment; empty keyword lists never match. -/
def lineContainsKeyword (text : String) (keywords : List String) : Bool :=
  keywords.any (fun kw =>
    let kn := pyLower (normalizeDelimiters kw)
    kn ≠ "" && containsSub (pyLower (normalizeDelimiters text)).data kn.data)

/-- `_iter_page_lines`: pages numbered from 1, lines indexed from 0 over the
raw `splitlines` output, stripped, empties dropped. -/
def iterPageLines (parsed : ParsedDocument) : List (Nat × Nat × String) :=
  parsed.pages.enum.flatMap (fun pp =>
    (splitLinesPy pp.2).enum.filterMap (fun lp =>
      let line := pyStrip lp.2
      if line ≠ "" then some (pp.1 + 1, lp.1, line) else none))

/-- `_collect_lines`. -/
def collectLines (parsed : ParsedDocument) : List (Nat × Nat × String) :=
  iterPageLines parsed

/-- The character set of the `segment.lstrip(":：-‐― 　 ")` call in
`_extract_segment_after_keyword`. -/
def segLstripChars : List Char := [':', '：', '-', '‐', '―', ' ', '　']

/-- `_extract_segment_after_keyword`: for the first keyword found in the
lowered line, take the text after it, strip label separators and
whitespace; empty results fall through to the next keyword. -/
def extractSegAux (normalizedText loweredText : List Char) : List String → List Char
  | [] => []
  | kw :: rest =>
    let kn := (normalizeDelimiters kw).data
    let kl := kn.map pyLowerChar
    match findSubIdx loweredText kl with
    | none => extractSegAux normalizedText loweredText rest
    | some idx =>
      let seg1 := (normalizedText.drop (idx + kl.length)).dropWhile
        (fun c => segLstripChars.contains c)
      let seg2 := stripCharsList isPySpace seg1
      if seg2.isEmpty then extractSegAux normalizedText loweredText rest else seg2

/-- `_find_labeled_value`: scan the tagged lines; on a line containing a
keyword and no exclude keyword, return the post-label segment when the
predicate admits it, otherwise try the next line of the same page as the
value; `continue` corresponds to recursing on the tail. -/
def flvLoop (keywords exclude : List String) (allowNextLine : Bool)
    (vp : Option (String → Bool)) : List (Nat × Nat × String) → Option (String × String)
  | [] => none
  | (page, _, text) :: rest =>
    if !lineContainsKeyword text keywords then
      flvLoop keywords exclude allowNextLine vp rest
    else if lineContainsKeyword text exclude then
      flvLoop keywords exclude allowNextLine vp rest
    else
      let normalized := normalizeDelimiters text
      let lowered := pyLower normalized
      let candidate : String := ⟨extractSegAux normalized.data lowered.data keywords⟩
      if candidate ≠ "" &&
         (match vp with | none => true | some p => p (pyStrip candidate)) then
        some (pyStrip candidate, text)
      else if allowNextLine then
        match rest with
        | [] => flvLoop keywords exclude allowNextLine vp rest
        | (nextPage, _, nextText) :: _ =>
          if nextPage ≠ page then flvLoop keywords exclude allowNextLine vp rest
          else if lineContainsKeyword nextText keywords then
            flvLoop keywords exclude allowNextLine vp rest
          else
            let candNext := pyStrip nextText
            if candNext = "" then flvLoop keywords exclude allowNextLine vp rest
            else if (match vp with | none => false | some p => !p candNext) then
              flvLoop keywords exclude allowNextLine vp rest
            else if lineContainsKeyword candNext exclude then
              flvLoop keywords exclude allowNextLine vp rest
            else some (candNext, nextText)
      else flvLoop keywords exclude allowNextLine vp rest

def findLabeledValue (lines : List (Nat × Nat × String)) (keywords : List String)
    (exclude : List String) (allowNextLine : Bool)
    (vp : Option (String → Bool)) : Option (String × String) :=
  if keywords.isEmpty then none else flvLoop keywords exclude allowNextLine vp lines

/-- Greedy `(?:,[0-9]{3})*`: consumed characters and rest. -/
def commaGroups : List Char → List Char × List Char
  | ',' :: a :: b :: c :: t =>
    if isAsciiDigit a && isAsciiDigit b && isAsciiDigit c then
      let g := commaGroups t
      (',' :: a :: b :: c :: g.1, g.2)
    else ([], ',' :: a :: b :: c :: t)
  | cs => ([], cs)

/-- Optional `(?:\.\d+)?` with the unicode-aware `\d`. -/
def fracPart : List Char → List Char × List Char
  | '.' :: t =>
    let ds := t.span isPyDecDigit
    if ds.1.isEmpty then ([], '.' :: t) else ('.' :: ds.1, ds.2)
  | cs => ([], cs)

/-- One attempt of `NUMERIC_AMOUNT_PATTERN` anchored at the current
position.  The first alternative `[0-9]{1,3}(?:,[0-9]{3})*(?:\.\d+)?`
applies whenever the position starts with an ASCII digit (its optional
suffix groups never force backtracking); the second alternative
`\d+(?:\.\d+)?` is only reachable for non-ASCII digits. -/
def numericMatchAt (cs : List Char) : Option (List Char) :=
  match cs with
  | [] => none
  | c :: _ =>
    if isAsciiDigit c then
      let sp := cs.span isAsciiDigit
      let intPart := sp.1.take 3
      let afterInt := sp.1.drop 3 ++ sp.2
      let cg := commaGroups afterInt
      let fp := fracPart cg.2
      some (intPart ++ cg.1 ++ fp.1)
    else if isPyDecDigit c then
      let sp := cs.span isPyDecDigit
      let fp := fracPart sp.2
      some (sp.1 ++ fp.1)
    else none

/-- `re.search` for `NUMERIC_AMOUNT_PATTERN`: leftmost match. -/
def numericSearch : List Char → Option (List Char)
  | [] => none
  | c :: t =>
    match numericMatchAt (c :: t) with
    | some m => some m
    | none => numericSearch t

def digitsToNat (ds : List Char) : Nat :=
  ds.foldl (fun acc c => 10 * acc + pyDigitVal c) 0

/-- The value of a numeric match such as `3` or `1.5`, as an exact rational
(CPython uses a binary `float` here; the inputs reaching this branch are
short decimal literals on which the truncated product below agrees). -/
def parseDecRat (g : List Char) : Rat :=
  let sp := g.span isPyDecDigit
  match sp.2 with
  | '.' :: fr => (digitsToNat sp.1 : Rat) + (digitsToNat fr : Rat) / ((10 : Rat) ^ fr.length)
  | _ => (digitsToNat sp.1 : Rat)

/-- `f"{n:,}"`: decimal digits with comma grouping in threes. -/
def commaRev : List Char → Nat → List Char
  | [], _ => []
  | c :: t, i =>
    c :: (if (i + 1) % 3 = 0 && !t.isEmpty then
            ',' :: commaRev t (i + 1)
          else commaRev t (i + 1))

def commaFormat (n : Nat) : String :=
  ⟨(commaRev (Nat.toDigits 10 n).reverse 0).reverse⟩

/-- `_extract_numeric`: strip currency markers, search the numeric pattern;
otherwise, when the line carries the 億 marker, parse the numeric prefix
before 億, scale by 100,000,000 and re-format with comma grouping. -/
def extractNumeric (text : String) : Option String :=
  let normalized := (removeJPY text.data).filter (fun c => c ≠ '¥' && c ≠ '円')
  match numericSearch normalized with
  | some m => some ⟨m⟩
  | none =>
    if containsSub text.data ['億'] then
      let prefixPart := text.data.takeWhile (fun c => c ≠ '億')
      match numericSearch (prefixPart.filter (fun c => c ≠ ',')) with
      | none => none
      | some g =>
        some (commaFormat ((parseDecRat g * 100000000).floor.toNat))
    else none

/-- Python `\w` (unicode word character), approximated for the scripts this
repository handles: ASCII alphanumerics, underscore, kana, CJK ideographs
and fullwidth alphanumerics. -/
def isWordChar (c : Char) : Bool :=
  c.isAlphanum || c = '_' ||
  (0x3040 ≤ c.toNat && c.toNat ≤ 0x30ff) ||
  (0x4e00 ≤ c.toNat && c.toNat ≤ 0x9fff) ||
  (0xff10 ≤ c.toNat && c.toNat ≤ 0xff19) ||
  (0xff21 ≤ c.toNat && c.toNat ≤ 0xff3a) ||
  (0xff41 ≤ c.toNat && c.toNat ≤ 0xff5a)

/-- Ordered-alternation candidates for a greedy `\d{1,2}` group. -/
def twoOneDigitCands : List Char → List (Nat × List Char)
  | a :: b :: rest =>
    (if isPyDecDigit a && isPyDecDigit b then
       [(10 * pyDigitVal a + pyDigitVal b, rest)] else []) ++
    (if isPyDecDigit a then [(pyDigitVal a, b :: rest)] else [])
  | [a] => if isPyDecDigit a then [(pyDigitVal a, [])] else []
  | [] => []

/-- One attempt of `DATE_PATTERN` — word boundary, `(20\d{2})`, a `-` or
`/` separator, greedy `(\d{1,2})`, another separator, greedy `(\d{1,2})`,
word boundary — anchored at the current position; `prevOk` records the
leading boundary (no previous character, or a non-word one). -/
def isoMatchAt (prevOk : Bool) (cs : List Char) : Option (Nat × Nat × Nat) :=
  if !prevOk then none
  else
    match cs with
    | '2' :: '0' :: a :: b :: sep1 :: rest1 =>
      if isPyDecDigit a && isPyDecDigit b && (sep1 = '-' || sep1 = '/') then
        let y := 2000 + 10 * pyDigitVal a + pyDigitVal b
        firstSome (twoOneDigitCands rest1) (fun md =>
          match md.2 with
          | sep2 :: rest3 =>
            if sep2 = '-' || sep2 = '/' then
              firstSome (twoOneDigitCands rest3) (fun dd =>
                match dd.2 with
                | [] => some (y, md.1, dd.1)
                | c :: _ => if isWordChar c then none else some (y, md.1, dd.1))
            else none
          | [] => none)
      else none
    | _ => none

/-- `re.search` for `DATE_PATTERN`: try every start position left to right,
tracking the previous character for the word boundary. -/
def isoSearch (prev : Option Char) (cs : List Char) : Option (Nat × Nat × Nat) :=
  let pOk := match prev with | none => true | some c => !isWordChar c
  match isoMatchAt pOk cs with
  | some r => some r
  | none =>
    match cs with
    | [] => none
    | c :: t => isoSearch (some c) t

/-- One attempt of `KANJI_DATE_PATTERN` `(20\d{2})年(\d{1,2})月(\d{1,2})日`. -/
def kanjiMatchAt (cs : List Char) : Option (Nat × Nat × Nat) :=
  match cs with
  | '2' :: '0' :: a :: b :: '年' :: rest =>
    if isPyDecDigit a && isPyDecDigit b then
      firstSome (twoOneDigitCands rest) (fun md =>
        match md.2 with
        | '月' :: rest3 =>
          firstSome (twoOneDigitCands rest3) (fun dd =>
            match dd.2 with
            | '日' :: _ => some (2000 + 10 * pyDigitVal a + pyDigitVal b, md.1, dd.1)
            | _ => none)
        | _ => none)
    else none
  | _ => none

/-- One attempt of `REIWA_DATE_PATTERN` `令和(\d{1,2})年(\d{1,2})月(\d{1,2})日`,
with the era conversion `year = 2018 + N`. -/
def reiwaMatchAt (cs : List Char) : Option (Nat × Nat × Nat) :=
  match cs with
  | '令' :: '和' :: rest =>
    firstSome (twoOneDigitCands rest) (fun nn =>
      match nn.2 with
      | '年' :: rest2 =>
        firstSome (twoOneDigitCands rest2) (fun md =>
          match md.2 with
          | '月' :: rest3 =>
            firstSome (twoOneDigitCands rest3) (fun dd =>
              match dd.2 with
              | '日' :: _ => some (2018 + nn.1, md.1, dd.1)
              | _ => none)
          | _ => none)
      | _ => none)
  | _ => none

/-- `re.search` for a pattern without boundary assertions. -/
def plainSearch (matchAt : List Char → Option (Nat × Nat × Nat)) :
    List Char → Option (Nat × Nat × Nat)
  | [] => none
  | c :: t =>
    match matchAt (c :: t) with
    | some r => some r
    | none => plainSearch matchAt t

def padZero (w n : Nat) : String :=
  let s := toString n
  ⟨List.replicate (w - s.length) '0' ++ s.data⟩

/-- `_format_date_components`: `datetime(y, m, d).strftime("%Y-%m-%d")`
when the components form a valid date (`%m`/`%d` zero-padded, `%Y`
unpadded — identical to four zero-padded digits for every year the three
date patterns can produce), and the zero-padded f-string fallback
`f"{y:04d}-{m:02d}-{d:02d}"` when the `datetime` constructor raises. -/
def formatDateComponents (y m d : Nat) : String :=
  if isValidDatetime y m d then
    toString y ++ "-" ++ padZero 2 m ++ "-" ++ padZero 2 d
  else
    padZero 4 y ++ "-" ++ padZero 2 m ++ "-" ++ padZero 2 d

/-- `_match_date`: try the ISO, kanji and Reiwa patterns in that order and
normalise the first match. -/
def matchDate (text : String) : Option String :=
  match isoSearch none text.data with
  | some r => some (formatDateComponents r.1 r.2.1 r.2.2)
  | none =>
    match plainSearch kanjiMatchAt text.data with
    | some r => some (formatDateComponents r.1 r.2.1 r.2.2)
    | none =>
      match plainSearch reiwaMatchAt text.data with
      | some r => some (formatDateComponents r.1 r.2.1 r.2.2)
      | none => none

def AMOUNT_LABEL_KEYWORDS : List String :=
  ["総配当金額", "配当金総額", "配当金額", "支払配当金額",
   "Total Amount of Dividends", "Total Dividends"]

def amountExcludeKeywords : List String :=
  ["per share", "per-share", "1株当たり", "１株当たり"]

/-- Fallback loop of `_extract_dividend_amount`: first line mentioning
dividends, not per-share labelled, with an extractable number. -/
def amountFallbackLoop : List (Nat × Nat × String) → Option (String × String)
  | [] => none
  | (_, _, text) :: rest =>
    if !lineContainsKeyword text ["配当", "dividend"] then amountFallbackLoop rest
    else if lineContainsKeyword text ["per share", "1株当たり", "１株当たり"] then
      amountFallbackLoop rest
    else
      match extractNumeric text with
      | some numeric => some (numeric, text)
      | none => amountFallbackLoop rest

/-- `_extract_dividend_amount`. -/
def extractDividendAmount (parsed : ParsedDocument) : Option (String × String) :=
  let lines := collectLines parsed
  let labeled := findLabeledValue lines AMOUNT_LABEL_KEYWORDS amountExcludeKeywords true
    (some (fun t => (extractNumeric t).isSome))
  match labeled with
  | some cr =>
    match (extractNumeric cr.1).orElse (fun _ => extractNumeric cr.2) with
    | some numeric => some (numeric, cr.2)
    | none => amountFallbackLoop lines
  | none => amountFallbackLoop lines

/-! ## PDF ingestor (`voucher_logic/pdf_ingestor.py`) -/

/-- `bytes.lstrip()`: remove leading ASCII whitespace bytes. -/
def bytesLstrip (bs : List Nat) : List Nat :=
  bs.dropWhile (fun b => b = 0x20 || b = 9 || b = 10 || b = 13 || b = 11 || b = 12)

/-- The `%PDF` signature. -/
def pdfMagic : List Nat := [0x25, 0x50, 0x44, 0x46]

def isContByte (b : Nat) : Bool := 0x80 ≤ b && b ≤ 0xbf

/-- `bytes.decode("utf-8", errors="ignore")`: standard UTF-8 decoding that
rejects overlong forms, surrogates and out-of-range lead bytes, dropping
each maximal invalid subpart (the error handler ignores it) and resuming. -/
def utf8DecodeIgnore : List Nat → List Char
  | [] => []
  | b :: rest =>
    if b < 0x80 then Char.ofNat b :: utf8DecodeIgnore rest
    else if b < 0xc2 then utf8DecodeIgnore rest
    else if b < 0xe0 then
      match rest with
      | b1 :: rest1 =>
        if isContByte b1 then
          Char.ofNat ((b - 0xc0) * 64 + (b1 - 0x80)) :: utf8DecodeIgnore rest1
        else utf8DecodeIgnore (b1 :: rest1)
      | [] => []
    else if b < 0xf0 then
      let lo := if b = 0xe0 then 0xa0 else 0x80
      let hi := if b = 0xed then 0x9f else 0xbf
      match rest with
      | b1 :: rest1 =>
        if lo ≤ b1 && b1 ≤ hi then
          match rest1 with
          | b2 :: rest2 =>
            if isContByte b2 then
              Char.ofNat ((b - 0xe0) * 4096 + (b1 - 0x80) * 64 + (b2 - 0x80)) ::
                utf8DecodeIgnore rest2
            else utf8DecodeIgnore (b2 :: rest2)
          | [] => []
        else utf8DecodeIgnore (b1 :: rest1)
      | [] => []
    else if b < 0xf5 then
      let lo := if b = 0xf0 then 0x90 else 0x80
      let hi := if b = 0xf4 then 0x8f else 0xbf
      match rest with
      | b1 :: rest1 =>
        if lo ≤ b1 && b1 ≤ hi then
          match rest1 with
          | b2 :: rest2 =>
            if isContByte b2 then
              match rest2 with
              | b3 :: rest3 =>
                if isContByte b3 then
                  Char.ofNat ((b - 0xf0) * 262144 + (b1 - 0x80) * 4096 +
                      (b2 - 0x80) * 64 + (b3 - 0x80)) :: utf8DecodeIgnore rest3
                else utf8DecodeIgnore (b3 :: rest3)
              | [] => []
            else utf8DecodeIgnore (b2 :: rest2)
          | [] => []
        else utf8DecodeIgnore (b1 :: rest1)
      | [] => []
    else utf8DecodeIgnore rest

/-- `PdfIngestor.parse`.  The branch for inputs carrying the `%PDF`
signature runs the external-library/fallback extractor chain, whose
behaviour depends on optional third-party libraries; it is abstracted as
the parameter `pdfBranch`.  The two branches the claims are about — empty
input raises `ValueError("Empty file provided")`, and non-PDF input is
decoded permissively into a single page — are embedded directly. -/
def PdfIngestor.parse (pdfBranch : List Nat → Except String ParsedDocument)
    (fileBytes : List Nat) : Except String ParsedDocument :=
  if fileBytes.isEmpty then .error "Empty file provided"
  else if !(pdfMagic.isPrefixOf (bytesLstrip fileBytes)) then
    .ok { pages := [⟨utf8DecodeIgnore fileBytes⟩], tokens := [],
          metadata := [("page_count", 1)] }
  else pdfBranch fileBytes

/-! ## Highlight renderer (`voucher_logic/highlight.py`) -/

/-- One `span_map.setdefault(span.page, []).append(span)` step. -/
def spanMapInsert (m : List (Nat × List HighlightSpan)) (s : HighlightSpan) :
    List (Nat × List HighlightSpan) :=
  if m.any (fun kv => kv.1 == s.page) then
    m.map (fun kv => if kv.1 == s.page then (kv.1, kv.2 ++ [s]) else kv)
  else m ++ [(s.page, [s])]

def buildSpanMap (spans : List HighlightSpan) : List (Nat × List HighlightSpan) :=
  spans.foldl spanMapInsert []

def spanMapGet (m : List (Nat × List HighlightSpan)) (p : Nat) : List HighlightSpan :=
  match m.find? (fun kv => kv.1 == p) with
  | some kv => kv.2
  | none => []

/-- `HighlightRenderer.render`.  The `_SimplePDFBuilder.build` serialiser
(float formatting and byte-offset bookkeeping) is abstracted as the
parameter `build`, taking per-page (lines, highlight rectangles) data; the
early-return paths the claims are about do not reach it.  The Python
filter `if span.bbox` always holds because `bbox` is a non-empty tuple. -/
def HighlightRenderer.render (build : List (List String × List BBox) → List Nat)
    (originalPdf : List Nat) (spans : List HighlightSpan)
    (parsedDocument : Option ParsedDocument) : List Nat :=
  if spans.isEmpty then originalPdf
  else
    match parsedDocument with
    | none => originalPdf
    | some pd =>
      if pd.pages.isEmpty then originalPdf
      else
        let spanMap := buildSpanMap spans
        build (pd.pages.enum.map (fun pp =>
          (splitLinesPy pp.2, (spanMapGet spanMap (pp.1 + 1)).map (fun s => s.bbox))))

/-! ## Remote-extraction gateway (`voucher_logic/extraction.py`
`VoucherExtractor` and `voucher_logic/llm/clients.py`) -/

structure ExtractionError where
  message : String
deriving DecidableEq, Repr

/-- Exceptions an LLM client method `extract` can raise. -/
inductive PyError where
  | notImplemented (msg : String)
  | otherError (msg : String)
deriving DecidableEq, Repr

/-- A highlight entry of a structured client response, after the dict
lookups: `page` is `int(entry.get("page", 1))`; `bbox` is `some` when the
value (or the default `(0.0, 0.0, 1.0, 0.2)`) is a list or tuple. -/
structure RespHighlight where
  page : Nat
  bbox : Option (List Rat)
  label : Option String

/-- A structured client response map, restricted to the keys
`_from_llm_response` reads; `value_for` returns `none` for absent or
non-string values. -/
structure LLMResponse where
  title : Option String
  companyName : Option String
  resolutionDate : Option String
  dividendAmount : Option String
  highlights : List RespHighlight

/-- An object the `LLMClientFactory` registry can produce: a
`DummyLLMClient` (which defers to a fresh `RuleBasedVoucherExtractor`) or a
real client with an `extract` method that may raise. -/
inductive LLMClient where
  | dummy (provider : ProviderType)
  | external (extractFn : ParsedDocument → Except PyError LLMResponse)

def mkRespField (o : Option String) : FieldValue :=
  { value := o.map PyVal.pstr, confidence := none, sourceSpans := [], notes := none }

/-- `VoucherExtractor._from_llm_response`: map the four string fields
directly and rebuild highlight spans from entries whose bbox has exactly
four components. -/
def fromLLMResponse (resp : LLMResponse) : ExtractedVoucherData :=
  let highlights := resp.highlights.filterMap (fun e =>
    match e.bbox with
    | some [a, b, c, d] => some (HighlightSpan.mk e.page (a, b, c, d) e.label)
    | _ => none)
  { title := mkRespField resp.title
    companyName := mkRespField resp.companyName
    resolutionDate := mkRespField resp.resolutionDate
    dividendAmount :=
      match resp.dividendAmount with
      | some s => mkRespField (some s)
      | none => FieldValue.empty
    others := []
    sourceHighlights := highlights }

/-- `VoucherExtractor.extract`.  `factory` models `LLMClientFactory.create`
(`none` is the `KeyError` of an unregistered provider) and `rb` models the
pure, instance-state-free `RuleBasedVoucherExtractor.extract` — both the
`self._fallback` object and the fresh extractor built inside
`DummyLLMClient.extract_structured` compute this same function of the
parsed document.  A `NotImplementedError` from a real client falls back to
`rb`; any other exception is re-raised as `ExtractionError(str(exc))`. -/
def VoucherExtractor.extract (rb : ParsedDocument → ExtractedVoucherData)
    (factory : ProviderType → Option LLMClient)
    (parsed : ParsedDocument) (provider : ProviderType) :
    Except ExtractionError ExtractedVoucherData :=
  match factory provider with
  | none => .ok (rb parsed)
  | some (.dummy _) => .ok (rb parsed)
  | some (.external f) =>
    match f parsed with
    | .error (.notImplemented _) => .ok (rb parsed)
    | .error (.otherError s) => .error ⟨s⟩
    | .ok resp => .ok (fromLLMResponse resp)

/-! ## Pipeline controller (`voucher_logic/controller.py`) -/

/-- `analyze_voucher`.  The injectable collaborators are function
parameters: `ingest` is `pdf_ingestor.parse`, `extractFn` the resolved
extractor method `extract` (exceptions as `Except.error` of their message), and
`renderFn` is `highlight_renderer.render`.  The optional store only
receives a copy of the result and never changes it, so persistence is
omitted. -/
def analyzeVoucher (ingest : List Nat → Except String ParsedDocument)
    (extractFn : ParsedDocument → Except String ExtractedVoucherData)
    (renderFn : List Nat → List HighlightSpan → ParsedDocument → Except String (List Nat))
    (fileBytes : List Nat) : VoucherAnalysisResult :=
  match ingest fileBytes with
  | .error e =>
    { VoucherAnalysisResult.empty with
      errors := ["PDF parsing failed: " ++ e], highlightPdf := fileBytes }
  | .ok parsed =>
    match extractFn parsed with
    | .error e =>
      { VoucherAnalysisResult.empty with
        parsedDocument := parsed, errors := ["Extraction failed: " ++ e] }
    | .ok extracted =>
      let validation := validate extracted
      match renderFn fileBytes extracted.sourceHighlights parsed with
      | .ok highlightPdf =>
        { parsedDocument := parsed, extracted := extracted, validation := validation,
          highlightPdf := highlightPdf, errors := [], warnings := [],
          sourceFilename := "" }
      | .error e =>
        { parsedDocument := parsed, extracted := extracted, validation := validation,
          highlightPdf := fileBytes, errors := [],
          warnings := ["highlight rendering skipped: " ++ e], sourceFilename := "" }

/-! ## Helper lemmas -/

theorem validate_eq (data : ExtractedVoucherData) :
    validate data =
      ⟨[("title", evaluateField "title" data.title "配当決議書のタイトルが確認できません"),
        ("company_name",
          evaluateField "company_name" data.companyName "配当決議の会社名が確認できません"),
        ("resolution_date",
          evaluateField "resolution_date" data.resolutionDate "配当決議日が確認できません"),
        ("dividend_amount",
          evaluateField "dividend_amount" data.dividendAmount "配当金額が確認できません")],
       outcomeLoop
         [evaluateField "title" data.title "配当決議書のタイトルが確認できません",
          evaluateField "company_name" data.companyName "配当決議の会社名が確認できません",
          evaluateField "resolution_date" data.resolutionDate "配当決議日が確認できません",
          evaluateField "dividend_amount" data.dividendAmount "配当金額が確認できません"]
         .PASS⟩ := rfl

theorem evaluateField_title_status (fv : FieldValue) (msg : String) :
    (evaluateField "title" fv msg).status =
      (if fv.isSet then RequirementState.PASS else .FAIL) := by
  by_cases h : fv.isSet <;> simp [evaluateField, h]

theorem evaluateField_company_status (fv : FieldValue) (msg : String) :
    (evaluateField "company_name" fv msg).status =
      (if fv.isSet then RequirementState.PASS else .FAIL) := by
  by_cases h : fv.isSet <;> simp [evaluateField, h]

theorem evaluateField_date_status (fv : FieldValue) (msg : String) :
    (evaluateField "resolution_date" fv msg).status =
      (if fv.isSet then
         (if isValidDateVal fv.value then RequirementState.PASS else .FAIL)
       else .FAIL) := by
  by_cases h : fv.isSet <;> by_cases h2 : isValidDateVal fv.value <;>
    simp [evaluateField, h, h2]

theorem evaluateField_amount_status (fv : FieldValue) (msg : String) :
    (evaluateField "dividend_amount" fv msg).status =
      (if fv.isSet then
         (if isValidAmountVal fv.value then RequirementState.PASS else .FAIL)
       else .FAIL) := by
  by_cases h : fv.isSet <;> by_cases h2 : isValidAmountVal fv.value <;>
    simp [evaluateField, h, h2]

/-! ## Claim theorems -/

/-- C1: for every `ExtractedVoucherData`, the report returned by
`VoucherValidator.validate` has `overall_status == PASS` iff each of the
four required fields is set (value present and non-empty) and passes its
format check (`resolution_date` parseable as `YYYY-MM-DD` or a `datetime`,
`dividend_amount` parseable as a decimal number after stripping comma
separators); any single missing or malformed required field forces
`overall_status == FAIL`. -/
theorem validate_overall_pass_iff_required_fields (data : ExtractedVoucherData) :
    ((validate data).overallStatus = .PASS ↔ allRequiredFieldsOk data = true) ∧
    ((validate data).overallStatus = .FAIL ↔ allRequiredFieldsOk data = false) := by
  have e1 := evaluateField_title_status data.title "配当決議書のタイトルが確認できません"
  have e2 := evaluateField_company_status data.companyName "配当決議の会社名が確認できません"
  have e3 := evaluateField_date_status data.resolutionDate "配当決議日が確認できません"
  have e4 := evaluateField_amount_status data.dividendAmount "配当金額が確認できません"
  rw [validate_eq]
  by_cases h1 : data.title.isSet <;>
    by_cases h2 : data.companyName.isSet <;>
    by_cases h3 : data.resolutionDate.isSet <;>
    by_cases h4 : isValidDateVal data.resolutionDate.value <;>
    by_cases h5 : data.dividendAmount.isSet <;>
    by_cases h6 : isValidAmountVal data.dividendAmount.value <;>
    simp_all [outcomeLoop, allRequiredFieldsOk]

/-- C10 (implicit): for every `ExtractedVoucherData`, the report from
`VoucherValidator.validate` contains exactly the four keys title,
company_name, resolution_date, dividend_amount in that fixed order, every
per-field status is PASS or FAIL (never UNKNOWN), and the overall status
is always PASS or FAIL — never WARNING and never UNKNOWN. -/
theorem validate_report_shape_invariants (data : ExtractedVoucherData) :
    (validate data).requirements.map Prod.fst =
      ["title", "company_name", "resolution_date", "dividend_amount"] ∧
    ((validate data).requirements.all
      (fun kv => kv.2.status == RequirementState.PASS ||
                 kv.2.status == RequirementState.FAIL)) = true ∧
    ((validate data).overallStatus = .PASS ∨ (validate data).overallStatus = .FAIL) := by
  have e1 := evaluateField_title_status data.title "配当決議書のタイトルが確認できません"
  have e2 := evaluateField_company_status data.companyName "配当決議の会社名が確認できません"
  have e3 := evaluateField_date_status data.resolutionDate "配当決議日が確認できません"
  have e4 := evaluateField_amount_status data.dividendAmount "配当金額が確認できません"
  rw [validate_eq]
  refine ⟨rfl, ?_, ?_⟩ <;>
    by_cases h1 : data.title.isSet <;>
    by_cases h2 : data.companyName.isSet <;>
    by_cases h3 : data.resolutionDate.isSet <;>
    by_cases h4 : isValidDateVal data.resolutionDate.value <;>
    by_cases h5 : data.dividendAmount.isSet <;>
    by_cases h6 : isValidAmountVal data.dividendAmount.value <;>
    simp_all [outcomeLoop] <;> decide

/-- C4: date normalisation is total on the three supported written date forms and
maps them to one canonical form — lines containing `2024-04-15`,
`2024年04月15日` or `令和6年04月15日` all normalise to `2024-04-15` (Reiwa
year N via `year = 2018 + N`); and for any matched components out of
calendar range, `_format_date_components` returns the zero-padded literal
components instead of raising. -/
theorem matchDate_normalizes_supported_date_forms :
    matchDate "2024-04-15" = some "2024-04-15" ∧
    matchDate "2024年04月15日" = some "2024-04-15" ∧
    matchDate "令和6年04月15日" = some "2024-04-15" ∧
    ∀ y m d : Nat, isValidDatetime y m d = false →
      formatDateComponents y m d =
        padZero 4 y ++ "-" ++ padZero 2 m ++ "-" ++ padZero 2 d := by
  refine ⟨rfl, rfl, rfl, ?_⟩
  intro y m d h
  simp [formatDateComponents, h]

/-- Witness for C4: the fallback clause at the out-of-range components
(10000, 13, 45). -/
theorem matchDate_normalizes_supported_date_forms_witness :
    isValidDatetime 10000 13 45 = false ∧
    formatDateComponents 10000 13 45 =
      padZero 4 10000 ++ "-" ++ padZero 2 13 ++ "-" ++ padZero 2 45 :=
  ⟨by decide, matchDate_normalizes_supported_date_forms.2.2.2 10000 13 45 (by decide)⟩

/-- C5: for every non-empty byte input without the `%PDF` signature,
`PdfIngestor.parse` returns a single page equal to the input permissively
decoded as UTF-8 (errors ignored), no tokens, and `page_count == 1` in the
metadata; and it raises an ingestion error on empty input. -/
theorem parse_non_pdf_single_page (pdfBranch : List Nat → Except String ParsedDocument)
    (fileBytes : List Nat) (hne : fileBytes ≠ [])
    (hsig : pdfMagic.isPrefixOf (bytesLstrip fileBytes) = false) :
    PdfIngestor.parse pdfBranch fileBytes =
      .ok { pages := [⟨utf8DecodeIgnore fileBytes⟩], tokens := [],
            metadata := [("page_count", 1)] } ∧
    PdfIngestor.parse pdfBranch [] = .error "Empty file provided" := by
  constructor
  · have hempty : fileBytes.isEmpty = false := by
      cases fileBytes with
      | nil => exact absurd rfl hne
      | cons a t => rfl
    simp [PdfIngestor.parse, hempty, hsig]
  · rfl

/-- Witness for C5 at the two-byte input `"hi"`. -/
theorem parse_non_pdf_single_page_witness :
    ([104, 105] : List Nat) ≠ [] ∧
    pdfMagic.isPrefixOf (bytesLstrip [104, 105]) = false ∧
    PdfIngestor.parse (fun _ => .error "x") [104, 105] =
      .ok { pages := ["hi"], tokens := [], metadata := [("page_count", 1)] } ∧
    PdfIngestor.parse (fun _ => .error "x") [] = .error "Empty file provided" := by
  have h := parse_non_pdf_single_page (fun _ => .error "x") [104, 105]
    (by decide) (by decide)
  exact ⟨by decide, by decide, h.1, h.2⟩

/-- C6: `HighlightRenderer.render` returns the original bytes unchanged
whenever the span list is empty, or the parsed document is absent or has
no pages. -/
theorem render_noop_paths_return_original
    (build : List (List String × List BBox) → List Nat)
    (originalPdf : List Nat) (spans : List HighlightSpan)
    (parsedDocument : Option ParsedDocument)
    (h : spans = [] ∨ parsedDocument = none ∨
         ∃ pd, parsedDocument = some pd ∧ pd.pages = []) :
    HighlightRenderer.render build originalPdf spans parsedDocument = originalPdf := by
  rcases h with h | h | ⟨pd, hpd, hpages⟩
  · simp [HighlightRenderer.render, h]
  · subst h
    by_cases hs : spans.isEmpty <;> simp [HighlightRenderer.render, hs]
  · subst hpd
    by_cases hs : spans.isEmpty <;>
      simp [HighlightRenderer.render, hs, hpages]

/-- Witness for C6: a non-trivial builder and document, empty span list. -/
theorem render_noop_paths_return_original_witness :
    (([] : List HighlightSpan) = [] ∨ (some ParsedDocument.empty : Option ParsedDocument) = none ∨
      ∃ pd, (some ParsedDocument.empty : Option ParsedDocument) = some pd ∧ pd.pages = []) ∧
    HighlightRenderer.render (fun _ => [9, 9]) [1, 2, 3] [] (some ParsedDocument.empty) =
      [1, 2, 3] :=
  ⟨Or.inl rfl,
   render_noop_paths_return_original (fun _ => [9, 9]) [1, 2, 3] []
     (some ParsedDocument.empty) (Or.inl rfl)⟩

/-- C7: when ingestion and extraction succeed but the highlight renderer
raises, `analyze_voucher` returns empty errors, exactly one warning
mentioning the rendering failure, the original bytes as `highlight_pdf`,
and the full validation report computed from the extracted data. -/
theorem render_failure_degrades_to_warning
    (ingest : List Nat → Except String ParsedDocument)
    (extractFn : ParsedDocument → Except String ExtractedVoucherData)
    (renderFn : List Nat → List HighlightSpan → ParsedDocument → Except String (List Nat))
    (fileBytes : List Nat) (parsed : ParsedDocument)
    (extracted : ExtractedVoucherData) (e : String)
    (hi : ingest fileBytes = .ok parsed)
    (hx : extractFn parsed = .ok extracted)
    (hr : renderFn fileBytes extracted.sourceHighlights parsed = .error e) :
    (analyzeVoucher ingest extractFn renderFn fileBytes).errors = [] ∧
    (analyzeVoucher ingest extractFn renderFn fileBytes).warnings =
      ["highlight rendering skipped: " ++ e] ∧
    (analyzeVoucher ingest extractFn renderFn fileBytes).highlightPdf = fileBytes ∧
    (analyzeVoucher ingest extractFn renderFn fileBytes).validation = validate extracted := by
  simp [analyzeVoucher, hi, hx, hr]

/-- Witness for C7: a renderer that always raises `"boom"`. -/
theorem render_failure_degrades_to_warning_witness :
    ((fun _ : List Nat => (Except.ok ParsedDocument.empty : Except String ParsedDocument)) [1] =
      .ok ParsedDocument.empty) ∧
    ((fun _ : ParsedDocument =>
        (Except.ok ExtractedVoucherData.empty : Except String ExtractedVoucherData))
      ParsedDocument.empty = .ok ExtractedVoucherData.empty) ∧
    ((fun _ : List Nat => fun _ : List HighlightSpan => fun _ : ParsedDocument =>
        (Except.error "boom" : Except String (List Nat)))
      [1] ExtractedVoucherData.empty.sourceHighlights ParsedDocument.empty = .error "boom") ∧
    (analyzeVoucher (fun _ => .ok ParsedDocument.empty)
        (fun _ => .ok ExtractedVoucherData.empty)
        (fun _ _ _ => .error "boom") [1]).errors = [] ∧
    (analyzeVoucher (fun _ => .ok ParsedDocument.empty)
        (fun _ => .ok ExtractedVoucherData.empty)
        (fun _ _ _ => .error "boom") [1]).warnings =
      ["highlight rendering skipped: " ++ "boom"] ∧
    (analyzeVoucher (fun _ => .ok ParsedDocument.empty)
        (fun _ => .ok ExtractedVoucherData.empty)
        (fun _ _ _ => .error "boom") [1]).highlightPdf = [1] ∧
    (analyzeVoucher (fun _ => .ok ParsedDocument.empty)
        (fun _ => .ok ExtractedVoucherData.empty)
        (fun _ _ _ => .error "boom") [1]).validation = validate ExtractedVoucherData.empty := by
  have h := render_failure_degrades_to_warning (fun _ => .ok ParsedDocument.empty)
    (fun _ => .ok ExtractedVoucherData.empty) (fun _ _ _ => .error "boom")
    [1] ParsedDocument.empty ExtractedVoucherData.empty "boom" rfl rfl rfl
  exact ⟨rfl, rfl, rfl, h.1, h.2.1, h.2.2.1, h.2.2.2⟩

/-- C8: when no client is registered for the provider, or the resolved
client raises `NotImplementedError`, `VoucherExtractor.extract` returns
exactly the result of the rule-based fallback on the same input; any other
client exception is surfaced as an `ExtractionError`. -/
theorem voucherExtractor_fallback_refinement
    (rb : ParsedDocument → ExtractedVoucherData)
    (factory : ProviderType → Option LLMClient)
    (parsed : ParsedDocument) (provider : ProviderType) :
    (factory provider = none →
      VoucherExtractor.extract rb factory parsed provider = .ok (rb parsed)) ∧
    (∀ f m, factory provider = some (.external f) →
      f parsed = .error (.notImplemented m) →
      VoucherExtractor.extract rb factory parsed provider = .ok (rb parsed)) ∧
    (∀ f s, factory provider = some (.external f) →
      f parsed = .error (.otherError s) →
      VoucherExtractor.extract rb factory parsed provider = .error ⟨s⟩) := by
  refine ⟨?_, ?_, ?_⟩
  · intro h
    simp [VoucherExtractor.extract, h]
  · intro f m hf hr
    simp [VoucherExtractor.extract, hf, hr]
  · intro f s hf hr
    simp [VoucherExtractor.extract, hf, hr]

/-- Witness for C8: an unregistered provider falls back to the heuristic
result; a client raising a non-NotImplementedError surfaces it. -/
theorem voucherExtractor_fallback_refinement_witness :
    ((fun _ : ProviderType => (none : Option LLMClient)) ProviderType.openai = none) ∧
    VoucherExtractor.extract (fun _ => ExtractedVoucherData.empty) (fun _ => none)
      ParsedDocument.empty .openai = .ok ExtractedVoucherData.empty ∧
    VoucherExtractor.extract (fun _ => ExtractedVoucherData.empty)
      (fun _ => some (.external (fun _ => .error (.otherError "backend down"))))
      ParsedDocument.empty .openai = .error ⟨"backend down"⟩ := by
  refine ⟨rfl, ?_, ?_⟩
  · exact (voucherExtractor_fallback_refinement (fun _ => ExtractedVoucherData.empty)
      (fun _ => none) ParsedDocument.empty .openai).1 rfl
  · exact (voucherExtractor_fallback_refinement (fun _ => ExtractedVoucherData.empty)
      (fun _ => some (.external (fun _ => .error (.otherError "backend down"))))
      ParsedDocument.empty .openai).2.2 _ "backend down" rfl rfl

/-- C9 (divergence evidence): on the line `3億円` the numeric extractor
returns the bare pattern match `3` — the plain numeric alternative matches
the digit before 億 — never reaching the 億-multiplier branch, instead of
the claimed `300,000,000`. -/
theorem extractNumeric_oku_line_eval :
    extractNumeric "3億円" = some "3" ∧ some "3" ≠ some "300,000,000" :=
  ⟨rfl, by decide⟩

/-- C2 (counterexample): a run on the non-empty input `"hi"` whose
extraction stage fails leaves `highlight_pdf` empty — the extraction-
failure arm of `analyze_voucher` builds the result from
`VoucherAnalysisResult.empty` and never sets `highlight_pdf`. -/
theorem highlightPdf_empty_on_extraction_failure :
    ([104, 105] : List Nat) ≠ [] ∧
    (analyzeVoucher (PdfIngestor.parse (fun _ => .error "x"))
      (fun _ => .error "boom") (fun o _ _ => .ok o) [104, 105]).highlightPdf = [] :=
  ⟨by decide, rfl⟩

/-- C2 (amended): for every non-empty input, and any renderer whose
successful outputs are non-empty (as `HighlightRenderer.render` guarantees
for non-empty originals), `highlight_pdf` is empty exactly on the
extraction-failure path; every other path yields a non-empty buffer. -/
theorem highlightPdf_empty_iff_extraction_failure
    (ingest : List Nat → Except String ParsedDocument)
    (extractFn : ParsedDocument → Except String ExtractedVoucherData)
    (renderFn : List Nat → List HighlightSpan → ParsedDocument → Except String (List Nat))
    (fileBytes : List Nat) (hne : fileBytes ≠ [])
    (hrender : ∀ spans parsed out,
      renderFn fileBytes spans parsed = .ok out → out ≠ []) :
    ((analyzeVoucher ingest extractFn renderFn fileBytes).highlightPdf = [] ↔
      ∃ parsed e, ingest fileBytes = .ok parsed ∧ extractFn parsed = .error e) := by
  cases hing : ingest fileBytes with
  | error e =>
    simp only [analyzeVoucher, hing]
    constructor
    · intro h
      exact absurd h hne
    · rintro ⟨parsed, e2, hok, _⟩
      simp [hing] at hok
  | ok parsed =>
    cases hext : extractFn parsed with
    | error e =>
      simp only [analyzeVoucher, hing, hext]
      constructor
      · intro _
        exact ⟨parsed, e, rfl, hext⟩
      · intro _
        rfl
    | ok extracted =>
      cases hrend : renderFn fileBytes extracted.sourceHighlights parsed with
      | ok out =>
        simp only [analyzeVoucher, hing, hext, hrend]
        constructor
        · intro h
          exact absurd h (hrender _ _ _ hrend)
        · rintro ⟨parsed2, e2, hok, herr⟩
          rw [show parsed2 = parsed from by simpa using hok.symm] at herr
          simp [hext] at herr
      | error e2 =>
        simp only [analyzeVoucher, hing, hext, hrend]
        constructor
        · intro h
          exact absurd h hne
        · rintro ⟨parsed2, e3, hok, herr⟩
          rw [show parsed2 = parsed from by simpa using hok.symm] at herr
          simp [hext] at herr

/-- Witness for C2 (amended): an extraction failure on the non-empty input
`"hi"`, with a renderer returning the fixed non-empty buffer `[37]`. -/
theorem highlightPdf_empty_iff_extraction_failure_witness :
    ([104, 105] : List Nat) ≠ [] ∧
    (∀ spans parsed out,
      (fun _ : List Nat => fun _ : List HighlightSpan => fun _ : ParsedDocument =>
        (Except.ok [37] : Except String (List Nat))) [104, 105] spans parsed = .ok out →
      out ≠ []) ∧
    ((analyzeVoucher (fun _ => .ok ParsedDocument.empty)
        (fun _ => .error "boom")
        (fun _ _ _ => .ok [37]) [104, 105]).highlightPdf = [] ↔
      ∃ parsed e, (fun _ : List Nat =>
          (Except.ok ParsedDocument.empty : Except String ParsedDocument)) [104, 105] =
            .ok parsed ∧
        (fun _ : ParsedDocument =>
          (Except.error "boom" : Except String ExtractedVoucherData)) parsed = .error e) := by
  have hr : ∀ (spans : List HighlightSpan) (parsed : ParsedDocument) (out : List Nat),
      (Except.ok [37] : Except String (List Nat)) = .ok out → out ≠ [] := by
    intro spans parsed out h
    cases h
    decide
  exact ⟨by decide, hr,
    highlightPdf_empty_iff_extraction_failure (fun _ => .ok ParsedDocument.empty)
      (fun _ => .error "boom") (fun _ _ _ => .ok [37]) [104, 105] (by decide) hr⟩

/-- C3 (divergence evidence): for a document whose page is exactly the line
`Total Amount of Dividends: JPY 36,000,000 (JPY 18 per share x 2,000,000
shares)` the dividend-amount extraction yields no value at all — the line
is skipped because it contains the exclude keyword `per share` — and on
the realistic document of the repository test suite the extraction returns
`"202"` scraped from the narrative date line, not `"36,000,000"`. -/
theorem extractDividendAmount_per_share_line_yields_none :
    extractDividendAmount
      ⟨["Total Amount of Dividends: JPY 36,000,000 (JPY 18 per share x 2,000,000 shares)"],
       [], []⟩ = none ∧
    extractDividendAmount
      ⟨["Board Resolution Regarding Dividend Distribution\n" ++
        "Acme Holdings K.K.\n" ++
        "Address: 1-10-2 Marunouchi, Chiyoda-ku, Tokyo 100-0005, Japan\n" ++
        "Corporate Number: 9012-34-567890\n" ++
        "At the meeting of the Board of Directors held on 2025-03-30, the Company resolved to distribute dividends.\n" ++
        "Total Amount of Dividends: JPY 36,000,000 (JPY 18 per share x 2,000,000 shares)\n"],
       [], []⟩ =
      some ("202",
        "At the meeting of the Board of Directors held on 2025-03-30, the Company resolved to distribute dividends.") :=
  ⟨rfl, rfl⟩

end VoucherLogic
